import Mathlib

/-!
Shallow embedding of the kanuni simulation core (src/kanuni.py) and proofs
about its claims.

Conventions of the embedding:
- Python `int` is `Int`; tile values are `Nat` (0 empty, 1 occupied,
  2 herb food, 3 carn food).
- Python list indexing `l[i]` is `pyGet l i : Option α`: `none` models an
  `IndexError`; a negative index `i` with `-len ≤ i` wraps around to
  `len + i`, as in Python.  Likewise `l[i] = a` is `pySet`.
- Random draws (`random.choice`, `random.randrange`) are passed in
  explicitly as parameters or as a list of pre-drawn outcomes, so every
  definition is executable and deterministic.
-/

namespace Kanuni

/-- The `Feeding` enum of kanuni.py (HERB, CARN, OMN). -/
inductive Feeding where
  | herb
  | carn
  | omn
deriving DecidableEq, Repr

/-- The `Cell` dataclass: an integer (x, y) position (x = column, y = row).
The `_x`/`_y` bookkeeping attributes written by `update_coords` are never
read again, so they are not modelled. -/
structure Cell where
  x : Int := 0
  y : Int := 0
deriving DecidableEq, Repr

/-- The `Features` dataclass: food multiplier, speed, feeding kind. -/
structure Features where
  food : Int := 1
  speed : Int := 1
  feeding : Feeding := Feeding.herb
deriving DecidableEq, Repr

/-- The `Player` dataclass: body cells, points, level, loss counter,
features. -/
structure Player where
  cells : List Cell
  points : Int := 0
  level : Int := 1
  loses : Int := 0
  features : Features := {}
deriving DecidableEq, Repr

/-- `Player.required_points`: `self.level * 4`. -/
def required_points (p : Player) : Int :=
  p.level * 4

/-- Python list read `l[i]`: in-range nonnegative index reads directly,
a negative index with `-len ≤ i` wraps to `len + i`, anything else is an
`IndexError` (`none`). -/
def pyGet {α : Type} (l : List α) (i : Int) : Option α :=
  if 0 ≤ i then l[i.toNat]?
  else if 0 ≤ i + l.length then l[(i + (l.length : Int)).toNat]?
  else none

/-- Python list write `l[i] = a`, with the same index semantics as
`pyGet`; `none` models the `IndexError`. -/
def pySet {α : Type} (l : List α) (i : Int) (a : α) : Option (List α) :=
  if 0 ≤ i then
    if i.toNat < l.length then some (l.set i.toNat a) else none
  else if 0 ≤ i + l.length then some (l.set (i + (l.length : Int)).toNat a)
  else none

theorem pySet_length {α : Type} {l l2 : List α} {i : Int} {a : α}
    (h : pySet l i a = some l2) : l2.length = l.length := by
  unfold pySet at h
  split at h
  · split at h
    · cases h; simp
    · cases h
  · split at h
    · cases h; simp
    · cases h

theorem pyGet_pySet_self {α : Type} {l l2 : List α} {i : Int} {a : α}
    (h : pySet l i a = some l2) : pyGet l2 i = some a := by
  unfold pySet at h
  unfold pyGet
  split at h
  next hi =>
    split at h
    next hlt =>
      cases h
      rw [if_pos hi]
      exact List.getElem?_set_self hlt
    · cases h
  next hi =>
    split at h
    next hge =>
      cases h
      rw [if_neg hi, if_pos]
      · rw [List.length_set]
        exact List.getElem?_set_self (by omega)
      · rw [List.length_set]
        exact hge
    · cases h

theorem pyGet_pySet_ne {α : Type} {l l2 : List α} {i j : Int} {a : α}
    (h : pySet l i a = some l2) (hi : 0 ≤ i) (hj : 0 ≤ j) (hne : i ≠ j) :
    pyGet l2 j = pyGet l j := by
  unfold pySet at h
  unfold pyGet
  rw [if_pos hi] at h
  split at h
  · cases h
    rw [if_pos hj, if_pos hj]
    exact List.getElem?_set_ne (by omega)
  · cases h

/-- Tile values stored in the grid. -/
abbrev Tile := Nat

/-- The grid payload: `Grid.data`, a list of rows, each row a list of tile
values (`[list(repeat(0, col)).copy() for _ in range(row)]`). -/
abbrev GridData := List (List Tile)

/-- A fresh grid of `r` rows and `c` columns, all tiles 0 (`Grid.__init__`). -/
def initGrid (r c : Nat) : GridData :=
  List.replicate r (List.replicate c 0)

/-- `Grid.get_block(col, row)`: `self.data[row][col]` with Python index
semantics (`none` is the `IndexError`). -/
def get_block (g : GridData) (col row : Int) : Option Tile :=
  (pyGet g row).bind fun r => pyGet r col

/-- `Grid.set_block(col, row, value)`: `self.data[row][col] = value` with
Python index semantics (`none` is the `IndexError`). -/
def set_block (g : GridData) (col row : Int) (value : Tile) : Option GridData :=
  match pyGet g row with
  | none => none
  | some r =>
    match pySet r col value with
    | none => none
    | some r2 => pySet g row r2

theorem pyGet_nonneg_eq {α : Type} (l : List α) (i : Int) (hi : 0 ≤ i) :
    pyGet l i = l[i.toNat]? := by
  unfold pyGet
  rw [if_pos hi]

/-- C10.  `Grid.set_block(col, row, value)` writes `value` at row index
`row`, column index `col`, and leaves every other canonically (0-based)
addressed tile unchanged.  The rows of the grid are independent values, so
writing one row alters no other row. -/
theorem set_block_frame (g g2 : GridData) (col row : Int) (value : Tile)
    (col2 row2 : Int)
    (hset : set_block g col row value = some g2)
    (hc : 0 ≤ col) (hr : 0 ≤ row) (hc2 : 0 ≤ col2) (hr2 : 0 ≤ row2)
    (hne : ¬(row2 = row ∧ col2 = col)) :
    get_block g2 col2 row2 = get_block g col2 row2 ∧
    get_block g2 col row = some value := by
  unfold set_block at hset
  split at hset
  · cases hset
  next r hrow =>
    split at hset
    · cases hset
    next r2 hcol =>
      constructor
      · unfold get_block
        by_cases hrr : row2 = row
        · subst hrr
          have hcc : col2 ≠ col := fun hcc => hne ⟨rfl, hcc⟩
          rw [pyGet_pySet_self hset, hrow, Option.some_bind, Option.some_bind]
          exact pyGet_pySet_ne hcol hc hc2 (Ne.symm hcc)
        · rw [pyGet_pySet_ne hset hr hr2 (Ne.symm hrr)]
      · unfold get_block
        rw [pyGet_pySet_self hset, Option.some_bind]
        exact pyGet_pySet_self hcol

/-- Witness for C10 at a concrete grid: writing 9 at (row 1, col 0) of
[[1,2],[3,4]] leaves tile (row 0, col 1) unchanged and stores 9. -/
theorem set_block_frame_witness :
    get_block [[1, 2], [9, 4]] 1 0 = get_block [[1, 2], [3, 4]] 1 0 ∧
    get_block [[1, 2], [9, 4]] 0 1 = some 9 :=
  set_block_frame [[1, 2], [3, 4]] [[1, 2], [9, 4]] 0 1 9 1 0
    (by decide) (by decide) (by decide) (by decide) (by decide) (by decide)

/-- `Player.cell_collision(row, col)`: scans the cells for one with
`cell.y == row and cell.x == col`. -/
def Player.cell_collision (p : Player) (row col : Int) : Bool :=
  p.cells.any fun c => c.y == row && c.x == col

/-- Grid dimensions from `CONFIG["tiles"]`: 20 rows, 20 columns. -/
def tilesRow : Int := 20

/-- Grid dimensions from `CONFIG["tiles"]`: 20 rows, 20 columns. -/
def tilesCol : Int := 20

/-- The two movement axes, `"x"` and `"y"`. -/
inductive Axis where
  | x
  | y
deriving DecidableEq, Repr

/-- The candidate neighbour built inside `Player.obtain_cell`:
`Cell(**{through: getattr(cell, through) + 1, opp: getattr(cell, opp)})`,
where `opp = CONFIG["movement"][through]` is the other axis.  The step is
always `+1` along the chosen axis. -/
def stepCell (c : Cell) (through : Axis) : Cell :=
  match through with
  | .x => { x := c.x + 1, y := c.y }
  | .y => { x := c.x, y := c.y + 1 }

/-- `Player.obtain_cell`: up to `len(self.cells)` attempts; each attempt
draws `choice(self.cells)` and `choice(("x", "y"))` — passed in here as the
pre-drawn list `picks`, one entry per iteration.  An attempt whose
candidate passes `if self.cell_collision(cell.x, cell.y): continue` (note
the transposed argument order of that call: `cell_collision` expects
`(row, col)` but receives `(x, y)`) and satisfies
`cell.x < CONFIG["tiles"]["col"] and cell.y < CONFIG["tiles"]["row"]`
is appended and the search returns; otherwise the next attempt runs. -/
def obtain_cell (p : Player) : List (Cell × Axis) → Player
  | [] => p
  | (base, through) :: rest =>
    let cand := stepCell base through
    if p.cell_collision cand.x cand.y then obtain_cell p rest
    else if cand.x < tilesCol ∧ cand.y < tilesRow then
      { p with cells := p.cells ++ [cand] }
    else obtain_cell p rest

/-- A two-cell organism with no duplicate cells, used to exercise the
growth search. -/
def dupPlayer : Player :=
  { cells := [{ x := 0, y := 0 }, { x := 1, y := 0 }] }

/-- C6 (refuting the claim on the code as written).  Growing `dupPlayer`
with the drawn base `(0, 0)` and drawn axis `x` produces candidate
`(1, 0)`, which already is a body cell; the collision guard misses it
because `obtain_cell` calls `cell_collision(cell.x, cell.y)` while
`cell_collision(row, col)` compares `cell.y == row and cell.x == col`, so
the guard checks the transposed position `(0, 1)` instead.  The candidate
is appended and the organism ends the growth attempt with two cells at
`(1, 0)`. -/
theorem obtain_cell_duplicate_bug :
    dupPlayer.cells.Nodup ∧
    (obtain_cell dupPlayer [({ x := 0, y := 0 }, Axis.x)]).cells =
      [{ x := 0, y := 0 }, { x := 1, y := 0 }, { x := 1, y := 0 }] ∧
    ¬ (obtain_cell dupPlayer [({ x := 0, y := 0 }, Axis.x)]).cells.Nodup := by
  decide

theorem obtain_cell_cons (p : Player) (base : Cell) (through : Axis)
    (rest : List (Cell × Axis)) :
    obtain_cell p ((base, through) :: rest) =
      if p.cell_collision (stepCell base through).x (stepCell base through).y
      then obtain_cell p rest
      else if (stepCell base through).x < tilesCol ∧ (stepCell base through).y < tilesRow
        then { p with cells := p.cells ++ [stepCell base through] }
        else obtain_cell p rest := rfl

/-- C9.  Whenever the growth search appends a cell, the appended cell is
the `+1` unit-step neighbour of one of the previously existing cells along
the x axis or the y axis; no cell is ever added in the negative direction
of the chosen cell. -/
theorem obtain_cell_appends_pos_neighbor (p : Player) (picks : List (Cell × Axis))
    (hmem : ∀ pr ∈ picks, pr.1 ∈ p.cells) :
    (obtain_cell p picks).cells = p.cells ∨
    ∃ base ∈ p.cells,
      (obtain_cell p picks).cells = p.cells ++ [{ x := base.x + 1, y := base.y }] ∨
      (obtain_cell p picks).cells = p.cells ++ [{ x := base.x, y := base.y + 1 }] := by
  induction picks with
  | nil => exact Or.inl rfl
  | cons pr rest ih =>
    obtain ⟨base, through⟩ := pr
    have hbase : base ∈ p.cells := hmem _ (List.mem_cons_self _ _)
    have hrest : ∀ q ∈ rest, q.1 ∈ p.cells := fun q hq =>
      hmem q (List.mem_cons_of_mem _ hq)
    rw [obtain_cell_cons]
    split
    · exact ih hrest
    · split
      · right
        refine ⟨base, hbase, ?_⟩
        cases through
        · exact Or.inl rfl
        · exact Or.inr rfl
      · exact ih hrest

/-- Witness for C9: growing a single-cell organism at the origin with the
drawn axis `y` appends exactly the `+1` neighbour `(0, 1)`. -/
theorem obtain_cell_appends_pos_neighbor_witness :
    (obtain_cell { cells := [{ x := 0, y := 0 }] } [({ x := 0, y := 0 }, Axis.y)]).cells =
      ({ cells := [{ x := 0, y := 0 }] } : Player).cells ∨
    ∃ base ∈ ({ cells := [{ x := 0, y := 0 }] } : Player).cells,
      (obtain_cell { cells := [{ x := 0, y := 0 }] } [({ x := 0, y := 0 }, Axis.y)]).cells =
        ({ cells := [{ x := 0, y := 0 }] } : Player).cells ++ [{ x := base.x + 1, y := base.y }] ∨
      (obtain_cell { cells := [{ x := 0, y := 0 }] } [({ x := 0, y := 0 }, Axis.y)]).cells =
        ({ cells := [{ x := 0, y := 0 }] } : Player).cells ++ [{ x := base.x, y := base.y + 1 }] :=
  obtain_cell_appends_pos_neighbor { cells := [{ x := 0, y := 0 }] }
    [({ x := 0, y := 0 }, Axis.y)] (by decide)

/-- The `Features` part of `Player.obtain_new_feature`:
`food += randrange(1, 4)`, `speed += randrange(-1, 2)`,
`feeding = choice(...)`, followed by the clamp loop
`for item, value in vars(self.features).items(): if value == 0: setattr(self.features, item, 1)`.
The loop runs after all three increments and only ever fires on `food` and
`speed` (the `feeding` enum never compares equal to 0), so it is rendered
here as the two conditional resets on the post-increment values.  The drawn
increments `fd ∈ [1, 3]` and `sd ∈ [-1, 1]` and the drawn feeding `nf` are
parameters. -/
def obtain_new_feature_features (f : Features) (fd sd : Int) (nf : Feeding) : Features :=
  { food := if f.food + fd = 0 then 1 else f.food + fd,
    speed := if f.speed + sd = 0 then 1 else f.speed + sd,
    feeding := nf }

/-- `Player.obtain_new_feature`: mutate the features as above, then attempt
to grow the body by one cell via `obtain_cell`. -/
def obtain_new_feature (p : Player) (fd sd : Int) (nf : Feeding)
    (picks : List (Cell × Axis)) : Player :=
  obtain_cell { p with features := obtain_new_feature_features p.features fd sd nf } picks

/-- C8.  A freshly created `Features` satisfies `food ≥ 1 ∧ speed ≥ 1`, and
every trait re-roll followed by the clamp step preserves the invariant:
if the pre-mutation features satisfy it and the drawn increments are in
their `randrange` ranges (`fd ∈ [1, 3]`, `sd ∈ [-1, 1]`), the post-mutation
features satisfy `food ≥ 1 ∧ speed ≥ 1` again. -/
theorem features_invariant (f : Features) (fd sd : Int) (nf : Feeding)
    (hf : 1 ≤ f.food) (hs : 1 ≤ f.speed)
    (hfd1 : 1 ≤ fd) (hfd2 : fd ≤ 3) (hsd1 : -1 ≤ sd) (hsd2 : sd ≤ 1) :
    (1 ≤ ({} : Features).food ∧ 1 ≤ ({} : Features).speed) ∧
    1 ≤ (obtain_new_feature_features f fd sd nf).food ∧
    1 ≤ (obtain_new_feature_features f fd sd nf).speed := by
  refine ⟨⟨le_refl 1, le_refl 1⟩, ?_, ?_⟩ <;>
  · simp only [obtain_new_feature_features]
    split <;> omega

/-- Witness for C8: starting from the fresh features, a re-roll with
`fd = 1`, `sd = -1` keeps both fields at least 1. -/
theorem features_invariant_witness :
    (1 ≤ ({} : Features).food ∧ 1 ≤ ({} : Features).speed) ∧
    1 ≤ (obtain_new_feature_features {} 1 (-1) Feeding.omn).food ∧
    1 ≤ (obtain_new_feature_features {} 1 (-1) Feeding.omn).speed :=
  features_invariant {} 1 (-1) Feeding.omn (by decide) (by decide)
    (by decide) (by decide) (by decide) (by decide)

/-- The mutable session state of `Controller` used by the core: the grid,
the player, the two food counters, the pending correction (the stored
`("set_block", x, y, kind)` task, modelled by its arguments since the task
name is always `"set_block"`), the one-shot event message (modelled by a
flag recording whether one is set), the event timer, and the stream of
pre-drawn `randrange(0, 250)` outcomes consumed by the death check (head
first; an exhausted list stands for draws that do not hit 66). -/
structure GameState where
  grid : GridData
  player : Player
  herb_foods : Int := 0
  carn_foods : Int := 0
  pending_task : Option (Int × Int × Tile) := none
  event : Bool := false
  event_timer : Int := 0
  rolls : List Nat := []
deriving DecidableEq, Repr

/-- The prologue of `Controller.update_player`, run on every call whatever
the command: `self.event_timer += 1`, then
`if randrange(0, 250) == 66 and len(self.player.cells) > 1:` increment
`loses`, set the event message, and `self.player.cells.pop()` (which
removes the last cell). -/
def deathCheck (s : GameState) : GameState :=
  let s1 : GameState := { s with event_timer := s.event_timer + 1 }
  match s1.rolls with
  | [] => s1
  | r :: rest =>
    if r = 66 ∧ s1.player.cells.length > 1 then
      { s1 with
        rolls := rest,
        event := true,
        player := { s1.player with
          loses := s1.player.loses + 1,
          cells := s1.player.cells.dropLast } }
    else { s1 with rolls := rest }

theorem deathCheck_spec (s : GameState) :
    (deathCheck s).player.points = s.player.points ∧
    (deathCheck s).player.level = s.player.level ∧
    (deathCheck s).player.features = s.player.features ∧
    ((s.rolls.head? = some 66 ∧ s.player.cells.length > 1) →
      (deathCheck s).player.cells = s.player.cells.dropLast ∧
      (deathCheck s).player.loses = s.player.loses + 1) ∧
    (¬(s.rolls.head? = some 66 ∧ s.player.cells.length > 1) →
      (deathCheck s).player = s.player) := by
  unfold deathCheck
  dsimp only
  split
  next heq =>
    refine ⟨rfl, rfl, rfl, fun h => absurd h.1 ?_, fun _ => rfl⟩
    rw [heq]
    simp
  next r rest heq =>
    rw [heq]
    simp only [List.head?_cons, Option.some.injEq]
    split
    next h => exact ⟨rfl, rfl, rfl, fun _ => ⟨rfl, rfl⟩, fun hn => absurd h hn⟩
    next h => exact ⟨rfl, rfl, rfl, fun hh => absurd hh h, fun _ => rfl⟩

theorem deathCheck_rolls (s : GameState) : (deathCheck s).rolls = s.rolls.tail := by
  unfold deathCheck
  dsimp only
  split
  next heq => rw [heq]; rfl
  next r rest heq =>
    rw [heq]
    split <;> rfl

theorem deathCheck_cells_length (s : GameState) :
    (deathCheck s).player.cells.length ≤ s.player.cells.length := by
  unfold deathCheck
  dsimp only
  split
  · exact le_refl _
  · split
    · simp only [List.length_dropLast]
      omega
    · exact le_refl _

/-- `Controller.update_player("tile", current, x, y)`: after the death
check, if the pre-read tile value is a food tile (`action in {3, 2}`),
either accept it — OMN accepts anything, CARN accepts 3, HERB accepts 2 —
adding `features.food` to the points and decrementing the matching food
counter, or reject it by storing the pending task
`("set_block", x, y, action)` and returning. -/
def update_player_tile (s : GameState) (current : Tile) (x y : Int) : GameState :=
  let s1 := deathCheck s
  if current = 3 ∨ current = 2 then
    if s1.player.features.feeding ≠ Feeding.omn ∧
        ¬(s1.player.features.feeding = Feeding.carn ∧ current = 3) ∧
        ¬(s1.player.features.feeding = Feeding.herb ∧ current = 2) then
      { s1 with pending_task := some (x, y, current) }
    else
      let s2 := { s1 with player := { s1.player with
        points := s1.player.points + s1.player.features.food } }
      if current = 2 then { s2 with herb_foods := s2.herb_foods - 1 }
      else { s2 with carn_foods := s2.carn_foods - 1 }
  else s1

theorem update_player_tile_post (s : GameState) (current : Tile) (x y : Int) :
    (update_player_tile s current x y).player.cells = (deathCheck s).player.cells ∧
    (update_player_tile s current x y).player.loses = (deathCheck s).player.loses ∧
    (update_player_tile s current x y).rolls = (deathCheck s).rolls := by
  unfold update_player_tile
  dsimp only
  split
  · split
    · exact ⟨rfl, rfl, rfl⟩
    · split
      · exact ⟨rfl, rfl, rfl⟩
      · exact ⟨rfl, rfl, rfl⟩
  · exact ⟨rfl, rfl, rfl⟩

/-- `Controller.update_player("evolve", action)`: after the death check,
`if action >= self.player.required_points: self.player.level += 1;
self.player.points -= action; self.player.obtain_new_feature()`.  The
drawn feature increments, feeding and growth picks are parameters. -/
def update_player_evolve (s : GameState) (action fd sd : Int) (nf : Feeding)
    (picks : List (Cell × Axis)) : GameState :=
  let s1 := deathCheck s
  if action ≥ required_points s1.player then
    let p2 : Player :=
      { s1.player with
        level := s1.player.level + 1,
        points := s1.player.points - action }
    { s1 with player := obtain_new_feature p2 fd sd nf picks }
  else s1

/-- The Evolve command (`Key.G`): `on_key_release` dispatches
`update_player("evolve", amount)` with `amount = self.player.points`
captured when the actions dict was built; nothing between that capture and
the dispatch (footprint clear, food spawn, pending discharge — which touch
only the grid and the food counters) changes the player, so the command's
effect on the player is exactly this call. -/
def evolve_cmd (s : GameState) (fd sd : Int) (nf : Feeding)
    (picks : List (Cell × Axis)) : GameState :=
  update_player_evolve s s.player.points fd sd nf picks

theorem obtain_cell_fields (p : Player) (picks : List (Cell × Axis)) :
    (obtain_cell p picks).points = p.points ∧
    (obtain_cell p picks).level = p.level ∧
    (obtain_cell p picks).loses = p.loses ∧
    (obtain_cell p picks).features = p.features := by
  induction picks with
  | nil => exact ⟨rfl, rfl, rfl, rfl⟩
  | cons pr rest ih =>
    obtain ⟨base, through⟩ := pr
    rw [obtain_cell_cons]
    split
    · exact ih
    · split
      · exact ⟨rfl, rfl, rfl, rfl⟩
      · exact ih

theorem obtain_new_feature_fields (p : Player) (fd sd : Int) (nf : Feeding)
    (picks : List (Cell × Axis)) :
    (obtain_new_feature p fd sd nf picks).points = p.points ∧
    (obtain_new_feature p fd sd nf picks).level = p.level ∧
    (obtain_new_feature p fd sd nf picks).loses = p.loses := by
  unfold obtain_new_feature
  have h := obtain_cell_fields
    { p with features := obtain_new_feature_features p.features fd sd nf } picks
  exact ⟨h.1, h.2.1, h.2.2.1⟩

/-- A session state holding 5 points at level 1 (required points 4), used
to exercise the Evolve command above its threshold. -/
def overPointsState : GameState :=
  { grid := initGrid 20 20,
    player := { cells := [{ x := 0, y := 0 }], points := 5 },
    rolls := [0] }

/-- C1 (refuting the claim on the code as written).  With points = 5 and
requiredPoints = 4, an Evolve command leaves 0 points, not 5 − 4 = 1: the
code runs `self.player.points -= action` where `action` is the full point
balance captured at key press, not `required_points`. -/
theorem evolve_overspends_counterexample :
    overPointsState.player.points = 5 ∧
    required_points overPointsState.player = 4 ∧
    (evolve_cmd overPointsState 1 0 Feeding.omn []).player.points = 0 ∧
    (evolve_cmd overPointsState 1 0 Feeding.omn []).player.points ≠
      overPointsState.player.points - required_points overPointsState.player := by
  decide

/-- C1 as amended.  For every Evolve command issued when the organism's
points are at least requiredPoints, the command increments level by
exactly 1 and sets points to 0 — it subtracts the full point balance
captured at check time, which equals requiredPoints only when the balance
is exactly at the threshold. -/
theorem evolve_levels_up_and_zeroes_points (s : GameState) (fd sd : Int)
    (nf : Feeding) (picks : List (Cell × Axis))
    (h : s.player.points ≥ required_points s.player) :
    (evolve_cmd s fd sd nf picks).player.level = s.player.level + 1 ∧
    (evolve_cmd s fd sd nf picks).player.points = 0 := by
  have hd := deathCheck_spec s
  have hguard : s.player.points ≥ required_points (deathCheck s).player := by
    unfold required_points
    rw [hd.2.1]
    exact h
  unfold evolve_cmd update_player_evolve
  dsimp only
  rw [if_pos hguard]
  constructor
  · rw [(obtain_new_feature_fields _ fd sd nf picks).2.1]
    dsimp only
    rw [hd.2.1]
  · rw [(obtain_new_feature_fields _ fd sd nf picks).1]
    dsimp only
    rw [hd.1]
    omega

/-- Witness for C1 as amended: the concrete over-threshold state evolves
to level 2 with 0 points. -/
theorem evolve_levels_up_and_zeroes_points_witness :
    (evolve_cmd overPointsState 2 1 Feeding.herb []).player.level =
      overPointsState.player.level + 1 ∧
    (evolve_cmd overPointsState 2 1 Feeding.herb []).player.points = 0 :=
  evolve_levels_up_and_zeroes_points overPointsState 2 1 Feeding.herb [] (by decide)

/-- A two-cell session state holding 3 points at level 1 (required points
4) whose next death roll hits 66. -/
def underPointsState : GameState :=
  { grid := initGrid 20 20,
    player := { cells := [{ x := 0, y := 0 }, { x := 1, y := 1 }], points := 3 },
    rolls := [66] }

/-- C7 (refuting the claim on the code as written).  An Evolve command
with points below the threshold is not a complete no-op: the death check
at the top of `update_player` still runs, and with the drawn
`randrange(0, 250)` hitting 66 on a two-cell organism it removes the last
cell and increments `loses` even though the evolve branch itself is
skipped. -/
theorem evolve_insufficient_not_noop_counterexample :
    underPointsState.player.points < required_points underPointsState.player ∧
    (evolve_cmd underPointsState 1 0 Feeding.omn []).player.loses = 1 ∧
    underPointsState.player.loses = 0 ∧
    (evolve_cmd underPointsState 1 0 Feeding.omn []).player.cells =
      [{ x := 0, y := 0 }] := by
  decide

/-- C7 as amended.  For every Evolve command issued when
points < requiredPoints, level, points and features are unchanged; cells
and loses are still subject to the per-command death check: if the drawn
roll is not 66 or the organism has at most one cell the player is entirely
unchanged, and otherwise the last cell is removed and loses is incremented
by 1. -/
theorem evolve_insufficient_noop_amended (s : GameState) (fd sd : Int)
    (nf : Feeding) (picks : List (Cell × Axis))
    (h : s.player.points < required_points s.player) :
    (evolve_cmd s fd sd nf picks).player.level = s.player.level ∧
    (evolve_cmd s fd sd nf picks).player.points = s.player.points ∧
    (evolve_cmd s fd sd nf picks).player.features = s.player.features ∧
    (¬(s.rolls.head? = some 66 ∧ s.player.cells.length > 1) →
      (evolve_cmd s fd sd nf picks).player = s.player) ∧
    ((s.rolls.head? = some 66 ∧ s.player.cells.length > 1) →
      (evolve_cmd s fd sd nf picks).player.cells = s.player.cells.dropLast ∧
      (evolve_cmd s fd sd nf picks).player.loses = s.player.loses + 1) := by
  have hd := deathCheck_spec s
  unfold evolve_cmd update_player_evolve
  dsimp only
  rw [if_neg]
  · exact ⟨hd.2.1, hd.1, hd.2.2.1, hd.2.2.2.2, hd.2.2.2.1⟩
  · unfold required_points at h ⊢
    rw [hd.2.1]
    omega

/-- Witness for C7 as amended at the concrete two-cell state: level,
points and features survive, and the triggered roll removes the last cell
and bumps loses. -/
theorem evolve_insufficient_noop_amended_witness :
    (evolve_cmd underPointsState 1 0 Feeding.carn []).player.level =
      underPointsState.player.level ∧
    (evolve_cmd underPointsState 1 0 Feeding.carn []).player.points =
      underPointsState.player.points ∧
    (evolve_cmd underPointsState 1 0 Feeding.carn []).player.features =
      underPointsState.player.features ∧
    (¬(underPointsState.rolls.head? = some 66 ∧
        underPointsState.player.cells.length > 1) →
      (evolve_cmd underPointsState 1 0 Feeding.carn []).player =
        underPointsState.player) ∧
    ((underPointsState.rolls.head? = some 66 ∧
        underPointsState.player.cells.length > 1) →
      (evolve_cmd underPointsState 1 0 Feeding.carn []).player.cells =
        underPointsState.player.cells.dropLast ∧
      (evolve_cmd underPointsState 1 0 Feeding.carn []).player.loses =
        underPointsState.player.loses + 1) :=
  evolve_insufficient_noop_amended underPointsState 1 0 Feeding.carn [] (by decide)

/-- The candidate target coordinate computed per cell in
`on_key_release`: axis `y` gives `(cell.x, cell.y + amount)`, axis `x`
gives `(cell.x + amount, cell.y)`. -/
def moveTarget (direction : Axis) (amount : Int) (c : Cell) : Int × Int :=
  match direction with
  | .y => (c.x, c.y + amount)
  | .x => (c.x + amount, c.y)

/-- The directional branch of `Controller.on_key_release`:
`with suppress(IndexError): for cell in self.player.cells: ...` with the
loop body reading the grid at the candidate target, calling
`update_player("tile", current, x, y)` and then `cell.update_coords`.
Python's for-loop keeps an index `i` into the live list (the death check
can pop the last cell mid-loop, shortening it), so the index is explicit
here: iteration stops when `i` reaches the current length (`cells[i]?`
is `none`), an `IndexError` from `get_block` ends the whole command while
keeping every mutation already made (that is all `suppress` does), and
`cell.update_coords` becomes a `List.set` at `i` — a no-op exactly when
the mutated object was the popped one.  `fuel` bounds the recursion;
`move_loop_fuel` below shows that any fuel at least `cells.length - i`
yields the same result, and `resolve_dir` passes the initial cell count,
which always suffices because the list never grows. -/
def move_loop (direction : Axis) (amount : Int) : Nat → Nat → GameState → GameState
  | 0, _, s => s
  | fuel + 1, i, s =>
    match s.player.cells[i]? with
    | none => s
    | some c =>
      let t := moveTarget direction amount c
      match get_block s.grid t.1 t.2 with
      | none => s
      | some current =>
        let s2 := update_player_tile s current t.1 t.2
        move_loop direction amount fuel (i + 1)
          { s2 with player := { s2.player with
            cells := s2.player.cells.set i { x := t.1, y := t.2 } } }

/-- A directional command (W/S/D/A): the key determines the axis and the
sign, and the step magnitude is the player's current speed (`W`/`D`
positive, `S`/`A` negative). -/
def resolve_dir (s : GameState) (direction : Axis) (positive : Bool) : GameState :=
  move_loop direction
    (if positive then s.player.features.speed else -s.player.features.speed)
    s.player.cells.length 0 s

theorem update_player_tile_cells_length (s : GameState) (current : Tile) (x y : Int) :
    (update_player_tile s current x y).player.cells.length ≤ s.player.cells.length := by
  rw [(update_player_tile_post s current x y).1]
  exact deathCheck_cells_length s

theorem move_loop_fuel (direction : Axis) (amount : Int) :
    ∀ f1 f2 i : Nat, ∀ s : GameState,
      s.player.cells.length - i ≤ f1 → s.player.cells.length - i ≤ f2 →
      move_loop direction amount f1 i s = move_loop direction amount f2 i s := by
  intro f1
  induction f1 with
  | zero =>
    intro f2 i s h1 h2
    cases f2 with
    | zero => rfl
    | succ g =>
      have hnone : s.player.cells[i]? = none := List.getElem?_eq_none (by omega)
      show move_loop direction amount 0 i s = move_loop direction amount (g + 1) i s
      unfold move_loop
      rw [hnone]
  | succ f ih =>
    intro f2 i s h1 h2
    cases f2 with
    | zero =>
      have hnone : s.player.cells[i]? = none := List.getElem?_eq_none (by omega)
      unfold move_loop
      rw [hnone]
    | succ g =>
      unfold move_loop
      cases hc : s.player.cells[i]? with
      | none => rfl
      | some c =>
        dsimp only
        cases hg : get_block s.grid (moveTarget direction amount c).1
            (moveTarget direction amount c).2 with
        | none => rfl
        | some current =>
          have hlen : (update_player_tile s current (moveTarget direction amount c).1
              (moveTarget direction amount c).2).player.cells.length ≤
              s.player.cells.length :=
            update_player_tile_cells_length s current _ _
          apply ih
          · simp only [List.length_set]
            omega
          · simp only [List.length_set]
            omega

/-- A two-cell organism where a move right sends the first cell in bounds
and the second cell out of the 20-column grid. -/
def abortedPairState : GameState :=
  { grid := initGrid 20 20,
    player := { cells := [{ x := 0, y := 0 }, { x := 19, y := 0 }] },
    rolls := [1, 1] }

/-- C2 (refuting the claim on the code as written).  In
`abortedPairState` the second cell's candidate for a move right is column
20, outside the 20-column grid, so the command is aborted — but not
atomically: the `suppress(IndexError)` block has already processed the
first cell, whose position change persists.  The claim's "no cell
position changes" fails. -/
theorem bounds_abort_not_atomic_counterexample :
    get_block abortedPairState.grid
      (moveTarget Axis.x 1 { x := 19, y := 0 }).1
      (moveTarget Axis.x 1 { x := 19, y := 0 }).2 = none ∧
    ({ x := 19, y := 0 } : Cell) ∈ abortedPairState.player.cells ∧
    (resolve_dir abortedPairState Axis.x true).player.cells =
      [{ x := 1, y := 0 }, { x := 19, y := 0 }] ∧
    (resolve_dir abortedPairState Axis.x true).player.cells ≠
      abortedPairState.player.cells := by
  decide

/-- C2 as amended.  A directional command's resolution stops at the first
cell (in list order) whose candidate coordinate raises an index error
(row or column at or beyond its dimension, or below minus its dimension;
a negative candidate within minus the dimension wraps around
Python-style instead of aborting); mutations already made for earlier
cells persist.  In particular, when the very first cell's candidate is
out of range, the command changes nothing at all. -/
theorem reject_first_cell_noop (s : GameState) (direction : Axis) (positive : Bool)
    (c : Cell) (rest : List Cell) (hc : s.player.cells = c :: rest)
    (hob : get_block s.grid
      (moveTarget direction (if positive then s.player.features.speed
        else -s.player.features.speed) c).1
      (moveTarget direction (if positive then s.player.features.speed
        else -s.player.features.speed) c).2 = none) :
    resolve_dir s direction positive = s := by
  have h0 : s.player.cells[0]? = some c := by rw [hc]; simp
  unfold resolve_dir
  rw [hc, List.length_cons]
  unfold move_loop
  rw [h0]
  dsimp only
  rw [hob]

/-- Witness for C2 as amended: a single cell at column 19 moving right in
the 20-column grid changes nothing. -/
theorem reject_first_cell_noop_witness :
    resolve_dir
      { grid := initGrid 20 20,
        player := { cells := [{ x := 19, y := 0 }] },
        rolls := [1] } Axis.x true =
      { grid := initGrid 20 20,
        player := { cells := [{ x := 19, y := 0 }] },
        rolls := [1] } :=
  reject_first_cell_noop
    { grid := initGrid 20 20,
      player := { cells := [{ x := 19, y := 0 }] },
      rolls := [1] } Axis.x true { x := 19, y := 0 } [] rfl (by decide)

/-- A two-cell organism about to move right across empty tiles only, with
pre-drawn death rolls 1 (miss) and 66 (hit). -/
def twoCellEmptyState : GameState :=
  { grid := initGrid 20 20,
    player := { cells := [{ x := 0, y := 0 }, { x := 5, y := 0 }] },
    rolls := [1, 66] }

/-- C3 (refuting the claim on the code as written).  Resolving one move
right over empty tiles only — the two resolved tiles, columns 1 and 6 of
row 0, both read 0 — consumes two death rolls, one per cell, because the
roll sits at the top of `update_player`, which runs once per cell; and
the second roll (66) kills a cell even though no resolved tile was a food
tile.  The claim's "exactly once per resolved command, only when the
resolved tile is a food tile" fails on both counts. -/
theorem death_roll_per_cell_counterexample :
    get_block twoCellEmptyState.grid 1 0 = some 0 ∧
    get_block twoCellEmptyState.grid 6 0 = some 0 ∧
    twoCellEmptyState.rolls.length = 2 ∧
    (resolve_dir twoCellEmptyState Axis.x true).rolls = [] ∧
    (resolve_dir twoCellEmptyState Axis.x true).player.loses = 1 ∧
    (resolve_dir twoCellEmptyState Axis.x true).player.cells =
      [{ x := 1, y := 0 }] := by
  decide

/-- C3 as amended.  The 1-in-250 cell-death check runs once per
`update_player` invocation — hence once per cell processed during a
directional command, whatever the resolved tile holds, and once per
Evolve or Restart command: each tile resolution consumes exactly one
drawn roll, and when the roll is 66 and the organism has more than one
cell, the last cell of the list is removed (`cells.pop()`, not a random
choice) and `loses` is incremented by 1; otherwise cells and loses are
untouched. -/
theorem death_check_per_update (s : GameState) (current : Tile) (x y : Int)
    (r : Nat) (rest : List Nat) (hr : s.rolls = r :: rest) :
    (update_player_tile s current x y).rolls = rest ∧
    (r = 66 ∧ s.player.cells.length > 1 →
      (update_player_tile s current x y).player.cells = s.player.cells.dropLast ∧
      (update_player_tile s current x y).player.loses = s.player.loses + 1) ∧
    (¬(r = 66 ∧ s.player.cells.length > 1) →
      (update_player_tile s current x y).player.cells = s.player.cells ∧
      (update_player_tile s current x y).player.loses = s.player.loses) := by
  have hpost := update_player_tile_post s current x y
  have hspec := deathCheck_spec s
  have hrolls := deathCheck_rolls s
  refine ⟨?_, ?_, ?_⟩
  · rw [hpost.2.2, hrolls, hr]
    rfl
  · intro htr
    have h2 := hspec.2.2.2.1 ⟨by rw [hr, List.head?_cons, htr.1], htr.2⟩
    exact ⟨hpost.1.trans h2.1, hpost.2.1.trans h2.2⟩
  · intro hntr
    have hn : ¬(s.rolls.head? = some 66 ∧ s.player.cells.length > 1) := by
      intro hcon
      rw [hr, List.head?_cons] at hcon
      exact hntr ⟨Option.some.inj hcon.1, hcon.2⟩
    have h2 := hspec.2.2.2.2 hn
    exact ⟨hpost.1.trans (congrArg Player.cells h2),
      hpost.2.1.trans (congrArg Player.loses h2)⟩

/-- A two-cell state whose next drawn death roll is 66. -/
def twoCellHitState : GameState :=
  { grid := initGrid 20 20,
    player := { cells := [{ x := 0, y := 0 }, { x := 3, y := 3 }] },
    rolls := [66, 5] }

/-- Witness for C3 as amended on a concrete two-cell state whose drawn
roll is 66: one roll is consumed, the last cell is removed and loses goes
up by one. -/
theorem death_check_per_update_witness :
    (update_player_tile twoCellHitState 0 1 0).rolls = [5] ∧
    (66 = 66 ∧ twoCellHitState.player.cells.length > 1 →
      (update_player_tile twoCellHitState 0 1 0).player.cells =
        twoCellHitState.player.cells.dropLast ∧
      (update_player_tile twoCellHitState 0 1 0).player.loses =
        twoCellHitState.player.loses + 1) ∧
    (¬(66 = 66 ∧ twoCellHitState.player.cells.length > 1) →
      (update_player_tile twoCellHitState 0 1 0).player.cells =
        twoCellHitState.player.cells ∧
      (update_player_tile twoCellHitState 0 1 0).player.loses =
        twoCellHitState.player.loses) :=
  death_check_per_update twoCellHitState 0 1 0 66 [5] rfl

/-- The attempt loop of `Controller._draw_foods(food, amount)`: each
attempt draws `row = randrange(rows)` and `col = randrange(cols)` (passed
in as the pre-drawn pick list, one pair per attempt; an empty list models
`amount <= 0`), skips the attempt when `self.player.cell_collision(row, col)`,
and otherwise runs `self.grid.set_block(row, col, food)` — the pair is
passed positionally into `set_block(col, row, value)`, so the write lands
at `data[col][row]` — and counts it in `increased`.  `none` models an
uncaught IndexError, impossible for in-range picks on the square grid. -/
def draw_foods_loop (p : Player) (food : Tile) :
    List (Int × Int) → GridData → Option (GridData × Int)
  | [], g => some (g, 0)
  | (row, col) :: rest, g =>
    if p.cell_collision row col then draw_foods_loop p food rest g
    else
      match set_block g row col food with
      | none => none
      | some g2 =>
        match draw_foods_loop p food rest g2 with
        | none => none
        | some (g3, n) => some (g3, n + 1)

/-- `Controller.draw_foods`: run `_draw_foods` for herb (tile 2) and carn
(tile 3) and add the returned `increased` counts to the two counters. -/
def draw_foods (s : GameState) (picksH picksC : List (Int × Int)) : Option GameState :=
  match draw_foods_loop s.player 2 picksH s.grid with
  | none => none
  | some (g1, n1) =>
    match draw_foods_loop s.player 3 picksC g1 with
    | none => none
    | some (g2, n2) =>
      some
        { s with
          grid := g2,
          herb_foods := s.herb_foods + n1,
          carn_foods := s.carn_foods + n2 }

/-- The footprint loop of `Controller.draw_player`:
`for cell in self.player.cells: self.grid.set_block(cell.x, cell.y, value)`. -/
def stampCells (value : Tile) : List Cell → GridData → Option GridData
  | [], g => some g
  | c :: cs, g =>
    match set_block g c.x c.y value with
    | none => none
    | some g2 => stampCells value cs g2

/-- `Controller.draw_player(value)`: stamp the organism footprint with
`value`, then run the food spawner.  The subsequent `draw_grid` and
`draw_info` calls are rendering only and out of scope. -/
def draw_player (s : GameState) (value : Tile) (picksH picksC : List (Int × Int)) :
    Option GameState :=
  match stampCells value s.player.cells s.grid with
  | none => none
  | some g2 => draw_foods { s with grid := g2 } picksH picksC

/-- The pending-correction discharge in `on_key_release`:
`if self.pending_task: task, *args = self.pending_task;
getattr(self.grid, task)(*args)`, i.e. `set_block(x, y, kind)`.  The code
does not clear the task afterwards. -/
def discharge_pending (s : GameState) : Option GameState :=
  match s.pending_task with
  | none => some s
  | some (x, y, k) =>
    match set_block s.grid x y k with
    | none => none
    | some g2 => some { s with grid := g2 }

/-- The start of a tick, as `on_key_release` runs it before dispatching
the new command: `self.draw_player(0)` — clear the organism footprint and
respawn food — followed by the pending-correction discharge.  The
resulting state is the one the new command is processed in. -/
def tick_start (s : GameState) (picksH picksC : List (Int × Int)) : Option GameState :=
  match draw_player s 0 picksH picksC with
  | none => none
  | some s1 => discharge_pending s1

theorem get_block_set_block_self (g g2 : GridData) (col row : Int) (value : Tile)
    (h : set_block g col row value = some g2) :
    get_block g2 col row = some value := by
  unfold set_block at h
  split at h
  · cases h
  next r hrow =>
    split at h
    · cases h
    next r2 hcol =>
      unfold get_block
      rw [pyGet_pySet_self h, Option.some_bind]
      exact pyGet_pySet_self hcol

theorem draw_player_pending (s : GameState) (value : Tile)
    (picksH picksC : List (Int × Int)) (s2 : GameState)
    (h : draw_player s value picksH picksC = some s2) :
    s2.pending_task = s.pending_task := by
  unfold draw_player at h
  split at h
  · cases h
  next g2 hstamp =>
    unfold draw_foods at h
    split at h
    · cases h
    next g3 n1 hh =>
      split at h
      · cases h
      next g4 n2 hc =>
        cases h
        rfl

theorem deathCheck_counters (s : GameState) :
    (deathCheck s).herb_foods = s.herb_foods ∧
    (deathCheck s).carn_foods = s.carn_foods := by
  unfold deathCheck
  dsimp only
  split
  · exact ⟨rfl, rfl⟩
  · split
    · exact ⟨rfl, rfl⟩
    · exact ⟨rfl, rfl⟩

theorem update_player_tile_reject (s : GameState) (current : Tile) (x y : Int)
    (hfood : current = 3 ∨ current = 2)
    (hrej : s.player.features.feeding ≠ Feeding.omn ∧
      ¬(s.player.features.feeding = Feeding.carn ∧ current = 3) ∧
      ¬(s.player.features.feeding = Feeding.herb ∧ current = 2)) :
    (update_player_tile s current x y).pending_task = some (x, y, current) ∧
    (update_player_tile s current x y).player.points = s.player.points ∧
    (update_player_tile s current x y).herb_foods = s.herb_foods ∧
    (update_player_tile s current x y).carn_foods = s.carn_foods := by
  have hfeat := (deathCheck_spec s).2.2.1
  unfold update_player_tile
  dsimp only
  rw [if_pos hfood, if_pos (by rw [hfeat]; exact hrej)]
  exact ⟨rfl, (deathCheck_spec s).1, (deathCheck_counters s).1,
    (deathCheck_counters s).2⟩

/-- C4.  A food tile rejected by diet mismatch at tick T — leaving the
pending correction `(x, y, kind)` in force at the end of the command —
holds the same food kind again at the start of tick T+1: after
`draw_player(0)` (footprint clear and food respawn, with any pre-drawn
spawn picks) the discharge writes `kind` back at `(x, y)`, and nothing
runs between the discharge and the dispatch of the new command. -/
theorem pending_correction_roundtrip (s0 s1 s2 : GameState) (direction : Axis)
    (positive : Bool) (x y : Int) (k : Tile) (picksH picksC : List (Int × Int))
    (hmove : resolve_dir s0 direction positive = s1)
    (hpend : s1.pending_task = some (x, y, k))
    (htick : tick_start s1 picksH picksC = some s2) :
    get_block s2.grid x y = some k := by
  unfold tick_start at htick
  split at htick
  · cases htick
  next s3 hdraw =>
    have hp3 : s3.pending_task = some (x, y, k) :=
      (draw_player_pending s1 0 picksH picksC s3 hdraw).trans hpend
    unfold discharge_pending at htick
    split at htick
    next hnone => rw [hp3] at hnone; cases hnone
    next x2 y2 k2 hsome =>
      rw [hp3] at hsome
      cases hsome
      split at htick
      · cases htick
      next g2 hset =>
        cases htick
        exact get_block_set_block_self s3.grid g2 x y k hset

/-- A 20 by 20 grid holding herb food (2) at row 0, column 1, and
otherwise empty. -/
def herbAt10Grid : GridData :=
  ((List.replicate 20 0).set 1 2) :: List.replicate 19 (List.replicate 20 0)

/-- A carnivore single-cell organism at the origin, one step left of the
herb food tile of `herbAt10Grid`. -/
def rejectState : GameState :=
  { grid := herbAt10Grid,
    player := { cells := [{ x := 0, y := 0 }],
                features := { feeding := Feeding.carn } },
    rolls := [1] }

/-- The state at the start of the tick after `rejectState` moved right
onto the herb tile and rejected it: the tile is restored, the organism
sits on `(1, 0)`, the pending task is still stored (the code never clears
it). -/
def roundtripEndState : GameState :=
  { grid := herbAt10Grid,
    player := { cells := [{ x := 1, y := 0 }],
                features := { feeding := Feeding.carn } },
    pending_task := some (1, 0, 2),
    event_timer := 1,
    rolls := [] }

/-- Witness for C4: the carnivore walks onto the herb tile, the rejection
schedules the correction, and at the start of the next tick the tile
again reads food kind 2. -/
theorem pending_correction_roundtrip_witness :
    get_block roundtripEndState.grid 1 0 = some 2 :=
  pending_correction_roundtrip rejectState (resolve_dir rejectState Axis.x true)
    roundtripEndState Axis.x true 1 0 2 [] [] rfl (by decide) (by decide)

/-- A single-cell organism at `(x = 1, y = 0)`, whose tile is
`data[0][1]`. -/
def spawnBugPlayer : Player :=
  { cells := [{ x := 1, y := 0 }] }

/-- C5 (exhibiting the bug).  The spawn attempt that draws
`(row = 1, col = 0)` is not skipped — `cell_collision(1, 0)` looks for a
cell with `y = 1, x = 0` and finds none — yet its write
`set_block(1, 0, 2)` lands at `data[0][1]`, exactly the tile the organism
cell `(x = 1, y = 0)` occupies (the footprint stamp writes
`set_block(cell.x, cell.y, value)`, i.e. `data[0][1]`, as the last
conjunct shows), and the attempt still increments the food counter.  Food
is therefore written onto an organism-occupied tile, against the
spawner's own collision guard.  The transposed pick `(row = 0, col = 1)`
is the one that gets skipped without counting, even though the write it
would have made lands at `data[1][0]`, a tile the organism does not
occupy. -/
theorem food_spawn_onto_organism_bug :
    spawnBugPlayer.cell_collision 1 0 = false ∧
    (draw_foods_loop spawnBugPlayer 2 [(1, 0)] (initGrid 20 20)).map
      (fun pr => (get_block pr.1 1 0, pr.2)) = some (some 2, 1) ∧
    (stampCells 1 spawnBugPlayer.cells (initGrid 20 20)).map
      (fun g => get_block g 1 0) = some (some 1) ∧
    spawnBugPlayer.cell_collision 0 1 = true ∧
    draw_foods_loop spawnBugPlayer 2 [(0, 1)] (initGrid 20 20) =
      some (initGrid 20 20, 0) := by
  decide

end Kanuni
